import Mathlib

/-!
Verification of the Nexora bot server's structured-query answering engine and
pipeline orchestration layer, as implemented in `src/agents/smart_sql_agent.py`
and `src/routes/projectRoutes.py`.

Python strings are modelled as Lean `String`s; the handful of Python string
operations the code uses (`in`, `lower`, `split`, `replace`, `strip`,
`endswith`, `" | ".join`) are given explicit structurally recursive models over
the character list so that every definition evaluates inside the kernel.
Python's `str.lower` is modelled by ASCII lowercasing (`Char.toLower`), which
agrees with CPython on every string appearing in the code or in these claims.
-/

namespace Nexora

/-! ## Python string primitives -/

/-- Substring occurrence test on character lists. -/
def listContainsSub (needle : List Char) : List Char → Bool
  | [] => needle.isEmpty
  | a :: tl => List.isPrefixOf needle (a :: tl) || listContainsSub needle tl

/-- Python's substring test `needle in hay`. -/
def pyIn (needle hay : String) : Bool :=
  listContainsSub needle.data hay.data

/-- Python's `s.lower()` (ASCII range). -/
def pyLower (s : String) : String :=
  String.mk (s.data.map Char.toLower)

/-- Python's `s.split(sep)` for a one-character separator, on character lists.
`splitOnChar c l` always returns a non-empty list of fragments. -/
def splitOnChar (c : Char) : List Char → List (List Char)
  | [] => [[]]
  | a :: tl =>
    let r := splitOnChar c tl
    if a == c then
      [] :: r
    else
      match r with
      | h :: t => (a :: h) :: t
      | [] => [[a]]

/-- Python's `s.split(c)[-1]`. -/
def pySplitLast (c : Char) (s : String) : String :=
  String.mk ((splitOnChar c s.data).getLastD [])

/-- Python's `s.split(c)[0]`. -/
def pySplitHead (c : Char) (s : String) : String :=
  String.mk ((splitOnChar c s.data).headD [])

/-- Python's `s.endswith(suffix)`. -/
def pyEndsWith (s suffix : String) : Bool :=
  List.isSuffixOf suffix.data s.data

/-- One fuel-indexed step list for Python's `s.replace(pat, rep)` (non-empty
pattern): scan left to right, replacing every non-overlapping occurrence. -/
def replaceFuel (pat rep : List Char) : Nat → List Char → List Char
  | _, [] => []
  | 0, l => l
  | n + 1, a :: tl =>
    if List.isPrefixOf pat (a :: tl) then
      rep ++ replaceFuel pat rep n (List.drop (pat.length - 1) tl)
    else
      a :: replaceFuel pat rep n tl

/-- Python's `s.replace(pat, rep)` for a non-empty pattern. -/
def pyReplace (s pat rep : String) : String :=
  String.mk (replaceFuel pat.data rep.data s.data.length s.data)

/-- Python's `s.strip()`. -/
def pyStrip (s : String) : String :=
  String.mk (((s.data.dropWhile Char.isWhitespace).reverse.dropWhile
    Char.isWhitespace).reverse)

/-- Python's `" | ".join(xs)` style joining. -/
def joinWith (sep : String) (xs : List String) : String :=
  String.intercalate sep xs

/-! ## TableLoader (`SmartDataAgent._load_data_to_sqlite`) -/

/-- One entry of the schema JSON's `"tables"` array.  The loader reads only
`table_name`; the other declared fields (`definition`, `columns`) never
influence table resolution and are omitted. -/
structure TableSpec where
  table_name : String

/-- The *simple name* of a file path, exactly as computed by the loader:
`path.split('/')[-1].split('\\')[-1].split('.')[0].lower()`.
Note that `split('.')[0]` truncates at the FIRST dot of the filename. -/
def simpleFilename (path : String) : String :=
  pyLower (pySplitHead '.' (pySplitLast '\\' (pySplitLast '/' path)))

/-- The loader's scan over the schema's `tables` array: the first `TableSpec`
whose lowercased `table_name` is a substring of the simple name or vice versa
wins, and the loop breaks. -/
def matchScan (simple : String) : List TableSpec → Option String
  | [] => none
  | t :: ts =>
    let schemaName := pyLower t.table_name
    if pyIn schemaName simple || pyIn simple schemaName then
      some schemaName
    else
      matchScan simple ts

/-- Table-name resolution for one file path (`_load_data_to_sqlite`, the
"Clean table name logic" block): first matching schema table, otherwise the
simple name unchanged. -/
def resolveTableName (tables : List TableSpec) (path : String) : String :=
  match matchScan (simpleFilename path) tables with
  | some n => n
  | none => simpleFilename path

/-- Modelled from the claim's words, for comparison with `simpleFilename`:
lowercase filename with all directory components and only the FINAL extension
stripped. -/
def simpleFilenameClaim (path : String) : String :=
  let base := pySplitLast '\\' (pySplitLast '/' path)
  let parts := splitOnChar '.' base.data
  pyLower (String.mk
    (if parts.length ≤ 1 then base.data else List.intercalate ['.'] parts.dropLast))

/-- Modelled from the claim's words, for comparison with `resolveTableName`:
resolution using the final-extension-stripped simple name. -/
def resolveTableNameClaim (tables : List TableSpec) (path : String) : String :=
  match matchScan (simpleFilenameClaim path) tables with
  | some n => n
  | none => simpleFilenameClaim path

/-- The match predicate of the loader's scan, as used by `List.find?`. -/
def specMatches (simple : String) (t : TableSpec) : Bool :=
  pyIn (pyLower t.table_name) simple || pyIn simple (pyLower t.table_name)

theorem matchScan_eq_find? (simple : String) (ts : List TableSpec) :
    matchScan simple ts = (ts.find? (specMatches simple)).map (fun t => pyLower t.table_name) := by
  induction ts with
  | nil => rfl
  | cons t ts ih =>
    have h' : (pyIn (pyLower t.table_name) simple || pyIn simple (pyLower t.table_name)) =
        specMatches simple t := rfl
    cases h : specMatches simple t <;>
      simp [matchScan, List.find?, h', h, ih]

/-- Claim C2 as stated is refuted on a filename with more than one dot:
the loader truncates the simple name at the FIRST dot (`split('.')[0]`),
not at the final extension.  For `"data.v2.csv"` with an empty schema the
resolved name is `"data"`, while the claim's reading yields `"data.v2"`. -/
theorem resolve_table_name_first_dot_counterexample :
    resolveTableName [] "data.v2.csv" = "data" ∧
    resolveTableNameClaim [] "data.v2.csv" = "data.v2" ∧
    resolveTableName [] "data.v2.csv" ≠ resolveTableNameClaim [] "data.v2.csv" := by
  refine ⟨by decide, by decide, by decide⟩

/-- Claim C2 (amended): the simple name is the lowercase filename with all
directory components stripped and everything from the FIRST dot onward removed;
the table name is the first schema `TableSpec` (declared order) whose lowercased
`table_name` is a substring of the simple name or vice versa, defaulting to the
simple name itself.  With schema tables `["movie","rating"]`, file
`"final_movies.csv"` resolves to `"movie"` and `"unknown_data.csv"` to
`"unknown_data"`. -/
theorem resolve_table_name_characterization :
    (∀ (tables : List TableSpec) (path : String),
      resolveTableName tables path =
        match tables.find? (specMatches (simpleFilename path)) with
        | some t => pyLower t.table_name
        | none => simpleFilename path) ∧
    simpleFilename "final_movies.csv" = "final_movies" ∧
    simpleFilename "/tmp/csv_agent/p1/Final_Movies.csv" = "final_movies" ∧
    simpleFilename "data.v2.csv" = "data" ∧
    resolveTableName [⟨"movie"⟩, ⟨"rating"⟩] "final_movies.csv" = "movie" ∧
    resolveTableName [⟨"movie"⟩, ⟨"rating"⟩] "unknown_data.csv" = "unknown_data" := by
  refine ⟨?_, by decide, by decide, by decide, by decide, by decide⟩
  intro tables path
  rw [resolveTableName, matchScan_eq_find?]
  cases tables.find? (specMatches (simpleFilename path)) <;> rfl

/-! ## Python dict model (for `dict(zip(columns, row))`) -/

section PyDict

variable {V : Type}

/-- Python dict assignment `d[k] = v` on an insertion-ordered association
list: when the key is present its value is updated in place (keeping the key's
position), otherwise the pair is appended at the end. -/
def pyDictInsert : List (String × V) → String → V → List (String × V)
  | [], k, v => [(k, v)]
  | p :: tl, k, v => if p.1 == k then (k, v) :: tl else p :: pyDictInsert tl k v

/-- Python's `dict(pairs)`: insert the pairs left to right into an empty
dict. -/
def pyDict (ps : List (String × V)) : List (String × V) :=
  ps.foldl (fun d p => pyDictInsert d p.1 p.2) []

/-- Python's `list(d.keys())` (insertion order). -/
def pyKeys (d : List (String × V)) : List String := d.map Prod.fst

/-- Python's `list(d.values())` (insertion order). -/
def pyValues (d : List (String × V)) : List V := d.map Prod.snd

/-- Python's `d.get(k)`: the (unique) entry with key `k`. -/
def pyLookup (k : String) (d : List (String × V)) : Option V :=
  (d.find? (fun p => p.1 == k)).map Prod.snd

/-- The LAST value paired with key `k` in a pair list — the claim-side notion
of "the last value for a repeated column name". -/
def lastAssoc (k : String) : List (String × V) → Option V
  | [] => none
  | p :: tl =>
    match lastAssoc k tl with
    | some v => some v
    | none => if p.1 == k then some p.2 else none

theorem pyKeys_pyDictInsert (d : List (String × V)) (k : String) (v : V) :
    pyKeys (pyDictInsert d k v) =
      if k ∈ pyKeys d then pyKeys d else pyKeys d ++ [k] := by
  induction d with
  | nil => simp [pyDictInsert, pyKeys]
  | cons p tl ih =>
    by_cases h : p.1 = k
    · simp [pyDictInsert, pyKeys, h]
    · have hb : (p.1 == k) = false := by simp [h]
      by_cases hm : k ∈ pyKeys tl <;>
        simp [pyDictInsert, pyKeys, hb, hm, Ne.symm h, ih, pyKeys] at * <;>
        simp [pyKeys, hm, Ne.symm h, ih] at *

theorem mem_pyKeys_pyDictInsert {d : List (String × V)} {k k' : String} {v : V} :
    k' ∈ pyKeys (pyDictInsert d k v) ↔ k' ∈ pyKeys d ∨ k' = k := by
  rw [pyKeys_pyDictInsert]
  by_cases hm : k ∈ pyKeys d
  · rw [if_pos hm]
    exact ⟨Or.inl, fun h => h.elim id (fun e => e ▸ hm)⟩
  · rw [if_neg hm]
    simp

theorem nodup_pyKeys_pyDictInsert {d : List (String × V)} {k : String} {v : V}
    (hd : (pyKeys d).Nodup) : (pyKeys (pyDictInsert d k v)).Nodup := by
  rw [pyKeys_pyDictInsert]
  by_cases hm : k ∈ pyKeys d
  · rwa [if_pos hm]
  · rw [if_neg hm]
    refine List.Nodup.append hd (List.nodup_singleton k) ?_
    intro a ha hk
    simp only [List.mem_singleton] at hk
    exact hm (hk ▸ ha)

theorem pyLookup_pyDictInsert (d : List (String × V)) (k k' : String) (v : V) :
    pyLookup k' (pyDictInsert d k v) = if k' = k then some v else pyLookup k' d := by
  induction d with
  | nil =>
    by_cases h : k' = k
    · simp [pyDictInsert, pyLookup, h]
    · have hb : (k == k') = false := by simp; exact fun e => h e.symm
      simp [pyDictInsert, pyLookup, hb, h]
  | cons p tl ih =>
    by_cases hpk : p.1 = k
    · by_cases h : k' = k
      · simp [pyDictInsert, pyLookup, hpk, h]
      · have hk : (k == k') = false := by simp; exact fun e => h e.symm
        have hp : (p.1 == k') = false := by simp [hpk]; exact fun e => h e.symm
        simp [pyDictInsert, pyLookup, hpk, h, hk, hp]
    · have hb : (p.1 == k) = false := by simp [hpk]
      by_cases hpk' : p.1 = k'
      · have h' : ¬ (k' = k) := fun e => hpk (hpk'.trans e)
        simp [pyDictInsert, pyLookup, hb, hpk', h']
      · have hb' : (p.1 == k') = false := by simp [hpk']
        have step : pyLookup k' (pyDictInsert (p :: tl) k v) = pyLookup k' (pyDictInsert tl k v) := by
          simp [pyDictInsert, pyLookup, List.find?, hb, hb']
        have step2 : pyLookup k' (p :: tl) = pyLookup k' tl := by
          simp [pyLookup, List.find?, hb']
        rw [step, ih, step2]

theorem pyLookup_foldl_insert (ps : List (String × V)) (d : List (String × V)) (k : String) :
    pyLookup k (ps.foldl (fun d p => pyDictInsert d p.1 p.2) d) =
      match lastAssoc k ps with
      | some v => some v
      | none => pyLookup k d := by
  induction ps generalizing d with
  | nil => simp [lastAssoc]
  | cons p tl ih =>
    rw [List.foldl_cons, ih]
    cases hla : lastAssoc k tl with
    | some v => simp [lastAssoc, hla]
    | none =>
      rw [pyLookup_pyDictInsert]
      simp only [lastAssoc, hla]
      by_cases h : k = p.1
      · have hb : (p.1 == k) = true := by simp [h.symm]
        simp [h, hb]
      · have hb : (p.1 == k) = false := by simp; exact fun e => h e.symm
        simp [h, hb]

theorem pyLookup_pyDict (ps : List (String × V)) (k : String) :
    pyLookup k (pyDict ps) = lastAssoc k ps := by
  rw [pyDict, pyLookup_foldl_insert]
  cases lastAssoc k ps <;> simp [pyLookup]

theorem mem_pyKeys_foldl_insert (ps : List (String × V)) (d : List (String × V)) (k : String) :
    k ∈ pyKeys (ps.foldl (fun d p => pyDictInsert d p.1 p.2) d) ↔
      k ∈ pyKeys d ∨ k ∈ ps.map Prod.fst := by
  induction ps generalizing d with
  | nil => simp
  | cons p tl ih =>
    rw [List.foldl_cons, ih]
    rw [mem_pyKeys_pyDictInsert]
    simp only [List.map_cons, List.mem_cons]
    tauto

theorem mem_pyKeys_pyDict (ps : List (String × V)) (k : String) :
    k ∈ pyKeys (pyDict ps) ↔ k ∈ ps.map Prod.fst := by
  rw [pyDict, mem_pyKeys_foldl_insert]
  simp [pyKeys]

theorem nodup_pyKeys_foldl_insert (ps : List (String × V)) (d : List (String × V))
    (hd : (pyKeys d).Nodup) :
    (pyKeys (ps.foldl (fun d p => pyDictInsert d p.1 p.2) d)).Nodup := by
  induction ps generalizing d with
  | nil => exact hd
  | cons p tl ih => exact ih _ (nodup_pyKeys_pyDictInsert hd)

theorem nodup_pyKeys_pyDict (ps : List (String × V)) : (pyKeys (pyDict ps)).Nodup :=
  nodup_pyKeys_foldl_insert ps [] (by simp [pyKeys])

theorem pyDictInsert_of_not_mem {d : List (String × V)} {k : String} {v : V}
    (h : k ∉ pyKeys d) : pyDictInsert d k v = d ++ [(k, v)] := by
  induction d with
  | nil => rfl
  | cons p tl ih =>
    simp only [pyKeys, List.map_cons, List.mem_cons, not_or] at h
    have hb : (p.1 == k) = false := by simp; exact fun e => h.1 e.symm
    simp [pyDictInsert, hb, ih (by simpa [pyKeys] using h.2)]

theorem foldl_insert_of_nodup (ps : List (String × V)) (d : List (String × V))
    (h : (pyKeys d ++ ps.map Prod.fst).Nodup) :
    ps.foldl (fun d p => pyDictInsert d p.1 p.2) d = d ++ ps := by
  induction ps generalizing d with
  | nil => simp
  | cons p tl ih =>
    have hnotmem : p.1 ∉ pyKeys d := by
      intro hmem
      have := List.disjoint_of_nodup_append h
      exact this hmem (by simp)
    rw [List.foldl_cons, pyDictInsert_of_not_mem hnotmem, ih]
    · simp
    · rw [show pyKeys (d ++ [(p.1, p.2)]) = pyKeys d ++ [p.1] by simp [pyKeys]]
      simpa [List.append_assoc] using h

theorem pyDict_of_nodup (ps : List (String × V)) (h : (ps.map Prod.fst).Nodup) :
    pyDict ps = ps := by
  rw [pyDict, foldl_insert_of_nodup ps [] (by simpa [pyKeys] using h)]
  simp

theorem pyKeys_pyDict_length_lt (ps : List (String × V))
    (h : ¬ (ps.map Prod.fst).Nodup) :
    (pyKeys (pyDict ps)).length < (ps.map Prod.fst).length := by
  classical
  have hnd : (pyKeys (pyDict ps)).Nodup := nodup_pyKeys_pyDict ps
  have hfs : (pyKeys (pyDict ps)).toFinset = (ps.map Prod.fst).toFinset := by
    ext k
    simp only [List.mem_toFinset]
    exact mem_pyKeys_pyDict ps k
  have h1 : (pyKeys (pyDict ps)).length = (pyKeys (pyDict ps)).toFinset.card :=
    (List.toFinset_card_of_nodup hnd).symm
  have h2 : (ps.map Prod.fst).toFinset.card < (ps.map Prod.fst).length := by
    refine lt_of_le_of_ne (List.toFinset_card_le _) (fun he => h ?_)
    have := (Multiset.toFinset_card_eq_card_iff_nodup
      (m := ((ps.map Prod.fst : List String) : Multiset String))).mp (by simpa using he)
    simpa using this
  rw [h1, hfs]
  exact h2

end PyDict

/-! ## QueryExecutor (`SmartDataAgent.execute_and_answer`, lines 136-188) -/

/-- The reserved sentinel literal. -/
def sentinel : String := "NO_SQL_POSSIBLE"

/-- The fixed apology answer returned on the sentinel short-circuit. -/
def apologyAnswer : String :=
  "I apologize, but I could not generate a valid SQL query to answer your question based on the provided schema/data. The question might clearly require information not present in the tables."

/-- `generate_sql`'s post-processing of the raw oracle output:
`sql_query.replace("```sql", "").replace("```", "").strip()`. -/
def cleanSqlOutput (raw : String) : String :=
  pyStrip (pyReplace (pyReplace raw "```sql" "") "```" "")

/-- Outcome of `cursor.execute(sql)` against the in-memory relational store:
a result set with a column description, a statement with no description
(`cursor.description` is `None`), or a raised execution error. -/
inductive ExecOutcome (V : Type) where
  | table (columns : List String) (rows : List (List V))
  | command
  | failure (msg : String)
deriving DecidableEq

/-- Return value of `execute_and_answer`: the result dict `{answer, sql,
data}` (each data row a Python dict), or — when an exception escapes — the
plain string built by the `except` clause. -/
inductive AgentReply (V : Type) where
  | result (answer : String) (sql : String) (data : List (List (String × V)))
  | errorString (s : String)
deriving DecidableEq

def replyAnswer {V : Type} : AgentReply V → Option String
  | .result a _ _ => some a
  | .errorString _ => none

def replySql {V : Type} : AgentReply V → Option String
  | .result _ s _ => some s
  | .errorString _ => none

def replyData {V : Type} : AgentReply V → Option (List (List (String × V)))
  | .result _ _ d => some d
  | .errorString _ => none

/-- The text-table rendering block of `execute_and_answer` (lines 166-180):
headers come from the FIRST data row's dict keys, every row prints its dict
values joined with `" | "`, and the separator length is computed from those
headers. -/
def renderTextTable {V : Type} (toStr : V → String) (data : List (List (String × V))) : String :=
  match data with
  | [] => ""
  | first :: _ =>
    joinWith "\n"
      (joinWith " | " (pyKeys first) ::
       String.mk (List.replicate
         ((pyKeys first).foldl (fun a h => a + h.length) 0 +
          3 * ((pyKeys first).length - 1)) '-') ::
       data.map (fun r => joinWith " | " ((pyValues r).map toStr)))

/-- `execute_and_answer` from the cleaned generated SQL onward (the two
oracle calls have already produced `sql`); `exec` is the relational store's
response to executing `sql`, and `toStr` is Python's `str` on cell values. -/
def execute_and_answer {V : Type} (sql : String) (exec : ExecOutcome V)
    (toStr : V → String) : AgentReply V :=
  if pyIn sentinel sql then
    .result apologyAnswer sql []
  else
    match exec with
    | .failure msg => .errorString ("Error executing SQL or processing request: " ++ msg)
    | .command => .result ("Executed SQL: `" ++ sql ++ "`\n\n") sql []
    | .table cols rows =>
      let data := rows.map (fun r => pyDict (cols.zip r))
      .result ("Executed SQL: `" ++ sql ++ "`\n\n" ++ renderTextTable toStr data) sql data

/-- Modelled from the claim's words, for comparison with `renderTextTable`:
the table rendered directly from the query's column-name list and rows
(header joins the column names, separator of length
sum-of-name-lengths + 3*(numColumns-1), rows join stringified values). -/
def renderTableClaim {V : Type} (toStr : V → String) (columns : List String)
    (rows : List (List V)) : String :=
  if rows.isEmpty then ""
  else
    joinWith "\n"
      (joinWith " | " columns ::
       String.mk (List.replicate
         (columns.foldl (fun a h => a + h.length) 0 + 3 * (columns.length - 1)) '-') ::
       rows.map (fun r => joinWith " | " (r.map toStr)))

/-- Claim C1 as stated is refuted: when the cleaned synthesizer output
properly contains the sentinel, the short-circuit returns the WHOLE cleaned
output as the `"sql"` field, not the sentinel literal. -/
theorem sentinel_sql_field_counterexample :
    pyIn sentinel (cleanSqlOutput "```sql\nNO_SQL_POSSIBLE -- unanswerable\n```") = true ∧
    replySql (execute_and_answer (V := Nat)
        (cleanSqlOutput "```sql\nNO_SQL_POSSIBLE -- unanswerable\n```") .command toString) =
      some "NO_SQL_POSSIBLE -- unanswerable" ∧
    "NO_SQL_POSSIBLE -- unanswerable" ≠ sentinel := by
  refine ⟨by decide, by decide, by decide⟩

/-- Claim C1 (amended): for every synthesizer output whose cleaned text
contains the sentinel as a substring, `execute_and_answer` short-circuits: it
returns the fixed apology answer, the cleaned output (which contains the
sentinel) as the `"sql"` field and empty data, and the result does not depend
on the relational store's execution outcome — no query is executed. -/
theorem sentinel_short_circuit {V : Type} (raw : String)
    (h : pyIn sentinel (cleanSqlOutput raw) = true)
    (execA execB : ExecOutcome V) (toStrA toStrB : V → String) :
    execute_and_answer (cleanSqlOutput raw) execA toStrA =
      .result apologyAnswer (cleanSqlOutput raw) [] ∧
    execute_and_answer (cleanSqlOutput raw) execA toStrA =
      execute_and_answer (cleanSqlOutput raw) execB toStrB := by
  constructor <;> simp [execute_and_answer, h]

theorem sentinel_short_circuit_witness :
    execute_and_answer (V := Nat) (cleanSqlOutput "NO_SQL_POSSIBLE")
      (.table ["a"] [[1]]) toString = .result apologyAnswer "NO_SQL_POSSIBLE" [] := by
  have h := (sentinel_short_circuit (V := Nat) "NO_SQL_POSSIBLE" (by decide)
    (.table ["a"] [[1]]) .command toString toString).1
  have e : cleanSqlOutput "NO_SQL_POSSIBLE" = "NO_SQL_POSSIBLE" := by decide
  rw [e] at h
  exact h

/-- Claim C4 as stated is refuted on a result set with duplicate column
names: for columns `["a","a"]` and row `("1","2")` the code renders the
collapsed one-column table `"a\n-\n2"`, not the claim's two-column table. -/
theorem render_table_duplicate_columns_counterexample :
    replyAnswer (execute_and_answer (V := String) "SELECT x AS a, y AS a FROM t"
        (.table ["a", "a"] [["1", "2"]]) id) =
      some "Executed SQL: `SELECT x AS a, y AS a FROM t`\n\na\n-\n2" ∧
    renderTableClaim (V := String) id ["a", "a"] [["1", "2"]] = "a | a\n-----\n1 | 2" ∧
    replyAnswer (execute_and_answer (V := String) "SELECT x AS a, y AS a FROM t"
        (.table ["a", "a"] [["1", "2"]]) id) ≠
      some ("Executed SQL: `SELECT x AS a, y AS a FROM t`\n\n" ++
        renderTableClaim (V := String) id ["a", "a"] [["1", "2"]]) := by
  refine ⟨by decide, by decide, by decide⟩

theorem pyDict_zip_of_nodup {V : Type} {cols : List String} {r : List V}
    (hnd : cols.Nodup) (hlen : r.length = cols.length) :
    pyDict (cols.zip r) = cols.zip r := by
  refine pyDict_of_nodup _ ?_
  rwa [List.map_fst_zip cols r (le_of_eq hlen.symm)]

/-- Claim C4 (amended): for every successfully executed query whose result
columns are DISTINCT, the answer text is `"Executed SQL: \`<query>\`\n\n"`
followed by exactly the claim's table (header row joining the column names
with `" | "`, separator of `"-"` repeated sum-of-name-lengths +
3*(numColumns-1) times, one `" | "`-joined row of stringified values per data
row, and the empty table string when there are no rows); with duplicate column
names the table is instead rendered from the collapsed row mappings. -/
theorem render_table_distinct_columns {V : Type} (sql : String) (cols : List String)
    (rows : List (List V)) (toStr : V → String)
    (hs : pyIn sentinel sql = false)
    (hnd : cols.Nodup)
    (hlen : ∀ r ∈ rows, r.length = cols.length) :
    execute_and_answer sql (.table cols rows) toStr =
      .result ("Executed SQL: `" ++ sql ++ "`\n\n" ++ renderTableClaim toStr cols rows)
        sql (rows.map (fun r => cols.zip r)) := by
  have hdata : rows.map (fun r => pyDict (cols.zip r)) = rows.map (fun r => cols.zip r) :=
    List.map_congr_left (fun r hr => pyDict_zip_of_nodup hnd (hlen r hr))
  have hrender : renderTextTable toStr (rows.map (fun r => cols.zip r)) =
      renderTableClaim toStr cols rows := by
    cases rows with
    | nil => rfl
    | cons r0 rest =>
      have h0 : (r0 :: rest).map (fun r => cols.zip r) = cols.zip r0 :: rest.map (fun r => cols.zip r) := rfl
      rw [h0, renderTextTable]
      have hkeys : pyKeys (cols.zip r0) = cols := by
        rw [pyKeys, List.map_fst_zip cols r0 (le_of_eq (hlen r0 (by simp)).symm)]
      have hvals : ∀ r ∈ r0 :: rest, pyValues (cols.zip r) = r := by
        intro r hr
        rw [pyValues, List.map_snd_zip cols r (le_of_eq (hlen r hr))]
      rw [renderTableClaim]
      simp only [List.isEmpty_cons, if_neg (by simp : ¬(false = true))]
      rw [hkeys]
      have hbody : (cols.zip r0 :: rest.map (fun r => cols.zip r)).map
          (fun r => joinWith " | " ((pyValues r).map toStr)) =
          (r0 :: rest).map (fun r => joinWith " | " (r.map toStr)) := by
        rw [← h0, List.map_map]
        exact List.map_congr_left (fun r hr => by simp [hvals r hr])
      rw [← hbody]
  rw [execute_and_answer]
  rw [if_neg (by simp [hs])]
  simp only [hdata, hrender]

theorem render_table_distinct_columns_witness :
    execute_and_answer (V := String) "SELECT a, b FROM t"
        (.table ["a", "b"] [["1", "2"], ["3", "4"]]) id =
      .result "Executed SQL: `SELECT a, b FROM t`\n\na | b\n-----\n1 | 2\n3 | 4"
        "SELECT a, b FROM t" [[("a", "1"), ("b", "2")], [("a", "3"), ("b", "4")]] ∧
    "-----".length = "a".length + "b".length + 3 * (2 - 1) := by
  refine ⟨?_, by decide⟩
  have h := render_table_distinct_columns (V := String) "SELECT a, b FROM t" ["a", "b"]
    [["1", "2"], ["3", "4"]] id (by decide) (by decide) (by decide)
  exact h.trans (by decide)

/-- Claim C10: when the result set's column names contain duplicates the
executor collapses them: every returned row mapping keeps only the LAST value
per repeated name, its keys are duplicate-free yet cover exactly the query's
column names, and each mapping (hence the rendered header) has strictly fewer
entries than the query produced columns; the answer is rendered from those
collapsed mappings. -/
theorem duplicate_columns_collapsed {V : Type} (sql : String) (cols : List String)
    (rows : List (List V)) (toStr : V → String)
    (hs : pyIn sentinel sql = false)
    (hdup : ¬ cols.Nodup)
    (hlen : ∀ r ∈ rows, r.length = cols.length) :
    (∀ r ∈ rows, ∀ k, pyLookup k (pyDict (cols.zip r)) = lastAssoc k (cols.zip r)) ∧
    (∀ r ∈ rows,
      (pyKeys (pyDict (cols.zip r))).Nodup ∧
      (∀ k, k ∈ pyKeys (pyDict (cols.zip r)) ↔ k ∈ cols) ∧
      (pyKeys (pyDict (cols.zip r))).length < cols.length) ∧
    execute_and_answer sql (.table cols rows) toStr =
      .result ("Executed SQL: `" ++ sql ++ "`\n\n" ++
          renderTextTable toStr (rows.map (fun r => pyDict (cols.zip r))))
        sql (rows.map (fun r => pyDict (cols.zip r))) := by
  refine ⟨fun r _ k => pyLookup_pyDict _ k, fun r hr => ?_, ?_⟩
  · have hfst : (cols.zip r).map Prod.fst = cols :=
      List.map_fst_zip cols r (le_of_eq (hlen r hr).symm)
    refine ⟨nodup_pyKeys_pyDict _, fun k => ?_, ?_⟩
    · rw [mem_pyKeys_pyDict, hfst]
    · have := pyKeys_pyDict_length_lt (cols.zip r) (by rwa [hfst])
      rwa [hfst] at this
  · rw [execute_and_answer, if_neg (by simp [hs])]

theorem duplicate_columns_collapsed_witness :
    pyLookup "a" (pyDict (["a", "a"].zip ["1", "2"])) = some "2" ∧
    pyKeys (pyDict (["a", "a"].zip ["1", "2"])) = ["a"] ∧
    (pyKeys (pyDict (["a", "a"].zip ["1", "2"]))).length < (["a", "a"] : List String).length := by
  have h := duplicate_columns_collapsed (V := String) "SELECT x AS a, y AS a FROM t"
    ["a", "a"] [["1", "2"]] id (by decide) (by decide) (by decide)
  refine ⟨?_, by decide, ?_⟩
  · rw [h.1 ["1", "2"] (by simp) "a"]
    decide
  · exact (h.2.1 ["1", "2"] (by simp)).2.2

/-! ## PipelineOrchestrator: suppression and merge (`send_message`, lines 600-629) -/

/-- The fixed merge fallback sentence (line 629). -/
def mergeFallback : String :=
  "I searched available resources but found no relevant information or experienced an error."

/-- The fixed set of low-information phrases (lines 608-617). -/
def genericPhrases : List String :=
  ["project documents do not contain",
   "i searched available resources but found no",
   "information not present",
   "to find this information, you would typically",
   "you would typically need to query",
   "no relevant chunks found",
   "analysis from structured data",
   "executed sql"]

/-- Line 618's test: some generic phrase occurs in the lowercased
unstructured answer. -/
def isGenericRag (rag : String) : Bool :=
  genericPhrases.any (fun p => pyIn p (pyLower rag))

/-- The suppression step (lines 605-620): a non-empty generic unstructured
answer is replaced by the fixed placeholder. -/
def suppressGeneric (rag : String) : String :=
  if rag = "" then rag
  else if isGenericRag rag then "No relevant chunks found" else rag

/-- The merge step (lines 622-629); Python string truthiness is
non-emptiness. -/
def mergeResponses (csv rag : String) : String :=
  if csv ≠ "" ∧ rag ≠ "" then
    "**Analysis from Structured Data:**\n" ++ csv ++ "\n\n**Analysis from Documents:**\n" ++ rag
  else if csv ≠ "" then csv
  else if rag ≠ "" then rag
  else mergeFallback

/-- Claim C3: the merged final answer is the two-section template when both
branch answers are non-empty, exactly the structured text when only it is
non-empty, exactly the unstructured text when only it is non-empty, and the
fixed fallback sentence when both are empty; illustrated on the truth table
with "S" and "U". -/
theorem merge_responses_truth_table :
    (∀ csv rag : String, csv ≠ "" → rag ≠ "" →
      mergeResponses csv rag =
        "**Analysis from Structured Data:**\n" ++ csv ++ "\n\n**Analysis from Documents:**\n" ++ rag) ∧
    (∀ csv : String, csv ≠ "" → mergeResponses csv "" = csv) ∧
    (∀ rag : String, rag ≠ "" → mergeResponses "" rag = rag) ∧
    mergeResponses "" "" =
      "I searched available resources but found no relevant information or experienced an error." ∧
    mergeResponses "S" "U" = "**Analysis from Structured Data:**\nS\n\n**Analysis from Documents:**\nU" ∧
    mergeResponses "S" "" = "S" ∧
    mergeResponses "" "U" = "U" := by
  refine ⟨?_, ?_, ?_, by decide, by decide, by decide, by decide⟩
  · intro csv rag h1 h2
    rw [mergeResponses, if_pos ⟨h1, h2⟩]
  · intro csv h1
    rw [mergeResponses, if_neg (fun hc => hc.2 rfl), if_pos h1]
  · intro rag h2
    rw [mergeResponses, if_neg (fun hc => hc.1 rfl), if_neg (fun hc => hc rfl), if_pos h2]

theorem merge_responses_truth_table_witness :
    mergeResponses "S" "U" =
      "**Analysis from Structured Data:**\nS\n\n**Analysis from Documents:**\nU" :=
  merge_responses_truth_table.1 "S" "U" (by decide) (by decide)

/-- Claim C5: an unstructured answer whose lowercased text contains any of
the fixed low-information phrases (the set includes "no relevant chunks
found", "information not present" and "you would typically need to query") is
replaced by the fixed placeholder before merging — in particular the text
"I searched available resources but found no relevant information." is so
replaced — and a text containing none of the phrases passes through
unchanged. -/
theorem suppress_generic_characterization :
    (∀ rag : String, isGenericRag rag = true → suppressGeneric rag = "No relevant chunks found") ∧
    (∀ rag : String, isGenericRag rag = false → suppressGeneric rag = rag) ∧
    "no relevant chunks found" ∈ genericPhrases ∧
    "information not present" ∈ genericPhrases ∧
    "you would typically need to query" ∈ genericPhrases ∧
    suppressGeneric "I searched available resources but found no relevant information." =
      "No relevant chunks found" := by
  refine ⟨?_, ?_, by decide, by decide, by decide, by decide⟩
  · intro rag h
    by_cases he : rag = ""
    · rw [he] at h
      exact absurd h (by decide)
    · rw [suppressGeneric, if_neg he, if_pos h]
  · intro rag h
    by_cases he : rag = ""
    · rw [suppressGeneric, if_pos he]
    · rw [suppressGeneric, if_neg he, if_neg (by simp [h])]

theorem suppress_generic_characterization_witness :
    suppressGeneric "No relevant chunks found in the knowledge base." =
      "No relevant chunks found" :=
  suppress_generic_characterization.1 _ (by decide)

/-! ## ChatHistoryWindow (`get_chat_history`, lines 408-453) -/

/-- A stored message row as fetched for the history window
(`select("id, role, content")`, rows ordered ascending by creation time);
`role` and `content` may be absent. -/
structure MsgRecord where
  id : String
  role : Option String
  content : Option String
deriving DecidableEq

/-- A formatted history entry. -/
structure ChatMsg where
  role : String
  content : String
deriving DecidableEq

/-- Lines 445-448: `{"role": msg.get("role", "user"), "content":
msg.get("content", "")}`. -/
def formatMsg (m : MsgRecord) : ChatMsg :=
  ⟨m.role.getD "user", m.content.getD ""⟩

/-- Python's slice `data[-10:]`. -/
def lastTenSlice {α : Type} (l : List α) : List α := l.drop (l.length - 10)

/-- `get_chat_history` on the chat's ascending-ordered rows.  Mirrors the
code: the `.neq("id", ...)` filter applies only when `exclude_message_id` is
truthy (present AND non-empty), an empty result short-circuits to `[]`, and
the last ten remaining rows are formatted in order. -/
def get_chat_history (messages : List MsgRecord) (excludeId : Option String) : List ChatMsg :=
  let filtered : List MsgRecord := match excludeId with
    | some ex => if ex = "" then messages else messages.filter (fun m => m.id != ex)
    | none => messages
  if filtered.isEmpty then []
  else (lastTenSlice filtered).map formatMsg

/-- Modelled from the claim's words, for comparison with `get_chat_history`:
whenever an excluded id is given remove it, keep the last 10 entries
(reverse-take-reverse) in order, and format with defaults. -/
def chatHistoryClaim (messages : List MsgRecord) (excludeId : Option String) : List ChatMsg :=
  let remaining : List MsgRecord := match excludeId with
    | some ex => messages.filter (fun m => m.id != ex)
    | none => messages
  ((remaining.reverse.take 10).reverse).map formatMsg

theorem lastTenSlice_eq_reverse_take {α : Type} (l : List α) :
    lastTenSlice l = (l.reverse.take 10).reverse := by
  rw [show lastTenSlice l = l.rtake 10 from rfl, List.rtake_eq_reverse_take_reverse]

/-- Claim C6 as stated is refuted when the excluded id is the empty string:
the code's truthiness test (`if exclude_message_id:`) skips the exclusion
filter, so a row whose id equals the excluded (empty) id is NOT removed. -/
theorem chat_history_empty_exclude_counterexample :
    get_chat_history [⟨"", none, none⟩] (some "") = [⟨"user", ""⟩] ∧
    chatHistoryClaim [⟨"", none, none⟩] (some "") = [] ∧
    get_chat_history [⟨"", none, none⟩] (some "") ≠
      chatHistoryClaim [⟨"", none, none⟩] (some "") :=
  ⟨by decide, by decide, by decide⟩

/-- Claim C6 (amended): the history window returns exactly the last 10
entries of the ascending list with the excluded id removed — the exclusion
applying when the excluded id is present and non-empty (an empty excluded id
disables the filter) — all entries when fewer than 10 remain, ascending order
preserved, each mapped to role/content with defaults "user" and ""; 12 prior
messages plus an excluded current id yield exactly the 10 most recent with
the current id absent. -/
theorem chat_history_window_characterization :
    (∀ (messages : List MsgRecord) (ex : String), ex ≠ "" →
      get_chat_history messages (some ex) =
        (((messages.filter (fun m => m.id != ex)).reverse.take 10).reverse).map formatMsg) ∧
    (∀ messages : List MsgRecord,
      get_chat_history messages none = ((messages.reverse.take 10).reverse).map formatMsg) ∧
    get_chat_history
      [⟨"m01", some "user", some "q1"⟩, ⟨"m02", some "assistant", some "a1"⟩,
       ⟨"m03", some "user", some "q2"⟩, ⟨"m04", some "assistant", some "a2"⟩,
       ⟨"m05", some "user", some "q3"⟩, ⟨"m06", some "assistant", some "a3"⟩,
       ⟨"m07", some "user", some "q4"⟩, ⟨"m08", some "assistant", some "a4"⟩,
       ⟨"m09", some "user", some "q5"⟩, ⟨"m10", some "assistant", some "a5"⟩,
       ⟨"m11", some "user", some "q6"⟩, ⟨"m12", some "assistant", some "a6"⟩,
       ⟨"m13", some "user", some "q7"⟩] (some "m13") =
      [⟨"user", "q2"⟩, ⟨"assistant", "a2"⟩, ⟨"user", "q3"⟩, ⟨"assistant", "a3"⟩,
       ⟨"user", "q4"⟩, ⟨"assistant", "a4"⟩, ⟨"user", "q5"⟩, ⟨"assistant", "a5"⟩,
       ⟨"user", "q6"⟩, ⟨"assistant", "a6"⟩] := by
  have main : ∀ (l : List MsgRecord), (if l.isEmpty then ([] : List ChatMsg)
      else (lastTenSlice l).map formatMsg) = ((l.reverse.take 10).reverse).map formatMsg := by
    intro l
    cases l with
    | nil => rfl
    | cons a tl => rw [if_neg (by simp), lastTenSlice_eq_reverse_take]
  refine ⟨?_, ?_, by decide⟩
  · intro messages ex hex
    rw [get_chat_history]
    simp only [if_neg hex]
    exact main _
  · intro messages
    exact main _

theorem chat_history_window_characterization_witness :
    get_chat_history [⟨"m1", none, none⟩] (some "m2") = [⟨"user", ""⟩] :=
  (chat_history_window_characterization.1 [⟨"m1", none, none⟩] "m2" (by decide)).trans
    (by decide)

/-! ## PipelineOrchestrator control flow (`send_message`, lines 457-661) -/

/-- A completed project document as returned by the document store. -/
structure DocRecord where
  filename : String
  s3_key : String
deriving DecidableEq

/-- Outcome of a store insert: row data returned, empty data (the code then
raises `HTTPException(422)`), or a raised exception. -/
inductive InsertOutcome where
  | ok
  | emptyData
  | raise (msg : String)
deriving DecidableEq

/-- Outcome of an external call that either returns a value or raises. -/
inductive FetchOutcome (α : Type) where
  | ok (val : α)
  | raise (msg : String)
deriving DecidableEq

/-- Return shape of the smart agent call as consumed by the route (lines
550-553): a dict — from which `result.get("answer", "No answer generated.")`
is read — or anything else, stringified. -/
inductive AgentResultShape where
  | dictResult (answer : String)
  | strResult (s : String)
deriving DecidableEq

/-- The observable outcomes of every collaborator call `send_message` makes.
Downloads are keyed by `s3_key`; `none` means success and `some msg` a raised
storage error.  `smartAgent` covers agent construction plus
`execute_and_answer`; `settingsFetch` yields the configured agent type;
`ragInvoke` covers unstructured agent construction and invocation
(`get_chat_history` degrades internally and is absorbed into it). -/
structure Env where
  userInsert : InsertOutcome
  docsFetch : FetchOutcome (List DocRecord)
  schemaDownload : String → Option String
  fileDownload : String → Option String
  smartAgent : FetchOutcome AgentResultShape
  settingsFetch : FetchOutcome String
  ragInvoke : FetchOutcome (String × List String)
  aiInsert : InsertOutcome

/-- Line 497's partition test on the lowercased filename. -/
def isStructuredFile (d : DocRecord) : Bool :=
  pyEndsWith (pyLower d.filename) ".csv" || pyEndsWith (pyLower d.filename) ".xlsx" ||
    pyEndsWith (pyLower d.filename) ".xls"

/-- Line 513's schema-file test. -/
def isSchemaFile (d : DocRecord) : Bool :=
  pyEndsWith (pyLower d.filename) ".json"

/-- Line 559's fixed notice (also reached when the schema download fails,
leaving `schema_path` unset). -/
def schemaNotice : String :=
  "[Notice: Structured files found but no JSON schema file was detected. Please upload a .json schema file to process the data.]"

/-- Line 557's inline diagnostic. -/
def errorAnalyzing (msg : String) : String :=
  "[Error analyzing structured data: " ++ msg ++ "]"

/-- The structured branch (lines 506-559): the value `csv_response_text`
holds after step 3.  The schema search walks ALL completed documents and
breaks at the first `.json` one whether or not its download succeeds; the
tabular files are then downloaded in order inside the inner `try`, whose
`except` also catches agent construction failures. -/
def structuredBranch (env : Env) (docs : List DocRecord) : String :=
  if (docs.filter isStructuredFile).isEmpty then ""
  else
    match docs.find? isSchemaFile with
    | none => schemaNotice
    | some schemaDoc =>
      match env.schemaDownload schemaDoc.s3_key with
      | some _ => schemaNotice
      | none =>
        match (docs.filter isStructuredFile).findSome? (fun d => env.fileDownload d.s3_key) with
        | some m => errorAnalyzing m
        | none =>
          match env.smartAgent with
          | .raise m => errorAnalyzing m
          | .ok (.dictResult a) => a
          | .ok (.strResult s) => s

/-- The unstructured branch's agent type (lines 570-574): any failure while
reading the project settings degrades to "simple". -/
def agentTypeOf (env : Env) : String :=
  match env.settingsFetch with
  | .ok t => t
  | .raise _ => "simple"

/-- Result of the whole route: the HTTP response body or a raised
`HTTPException`. -/
inductive SendResult where
  | success (finalResponse : String) (citations : List String)
  | httpError (status : Nat) (detail : String)
deriving DecidableEq

/-- Observable outcome of one `send_message` call: the response plus the
chat's persisted messages ((role, content) pairs, insertion order). -/
structure SendOutcome where
  result : SendResult
  savedMessages : List (String × String)
deriving DecidableEq

/-- Detail string of the catch-all handler (lines 657-661). -/
def internalError (msg : String) : String :=
  "An internal server error occurred while creating message: " ++ msg

/-- `send_message` control flow over the collaborator outcomes `env`.  The
user message is inserted first; the structured branch catches its own
failures into `csv_response_text`; in the unstructured branch only the
settings fetch is guarded, so an exception from agent construction or
invocation propagates to the outer handler; suppression and merge then run,
and the assistant message is inserted last.  Nothing on any path deletes a
previously inserted message. -/
def send_message (env : Env) (content : String) : SendOutcome :=
  match env.userInsert with
  | .raise m => ⟨.httpError 500 (internalError m), []⟩
  | .emptyData => ⟨.httpError 422 "Failed to create message", []⟩
  | .ok =>
    let saved : List (String × String) := [("user", content)]
    match env.docsFetch with
    | .raise m => ⟨.httpError 500 (internalError m), saved⟩
    | .ok docs =>
      let csvText := structuredBranch env docs
      let ragOutcome : FetchOutcome (String × List String) :=
        if agentTypeOf env = "simple" ∨ agentTypeOf env = "agentic" then env.ragInvoke
        else .ok ("", [])
      match ragOutcome with
      | .raise m => ⟨.httpError 500 (internalError m), saved⟩
      | .ok (ragText, citations) =>
        let finalResponse := mergeResponses csvText (suppressGeneric ragText)
        match env.aiInsert with
        | .raise m => ⟨.httpError 500 (internalError m), saved⟩
        | .emptyData => ⟨.httpError 422 "Failed to create AI response", saved⟩
        | .ok => ⟨.success finalResponse citations, saved ++ [("assistant", finalResponse)]⟩

/-- Documents of the concrete scenarios: one schema file, one tabular file. -/
def docsEx : List DocRecord := [⟨"schema.json", "k0"⟩, ⟨"movies.csv", "k1"⟩]

/-- Scenario A: the structured branch fails (agent construction raises) while
everything else succeeds. -/
def envStructFail : Env :=
  { userInsert := .ok
    docsFetch := .ok docsEx
    schemaDownload := fun _ => none
    fileDownload := fun _ => none
    smartAgent := .raise "pandas parse error"
    settingsFetch := .ok "simple"
    ragInvoke := .ok ("From documents: X", [])
    aiInsert := .ok }

/-- Scenario B: the structured branch succeeds but the unstructured agent's
invocation raises. -/
def envRagFail : Env :=
  { envStructFail with
    smartAgent := .ok (.dictResult "Executed SQL: `SELECT 1`\n\n1")
    ragInvoke := .raise "rag connection error" }

/-- Claim C7: the first half holds — a structured-branch failure is caught
inline and the unstructured branch still runs to a successful response
(scenario A) — but the second half is violated by the code: an exception from
the unstructured agent's invocation is not caught, so the request fails with
HTTP 500, the structured result is discarded, and no assistant message is
persisted (scenario B). -/
theorem rag_failure_aborts_request :
    send_message envStructFail "How many movies are there?" =
      ⟨.success (mergeResponses (errorAnalyzing "pandas parse error") "From documents: X") [],
       [("user", "How many movies are there?"),
        ("assistant",
          mergeResponses (errorAnalyzing "pandas parse error") "From documents: X")]⟩ ∧
    send_message envRagFail "How many movies are there?" =
      ⟨.httpError 500 (internalError "rag connection error"),
       [("user", "How many movies are there?")]⟩ := by
  constructor <;> decide

/-- Claim C8: a storage download failure during the structured branch —
whether for the schema file or for a tabular file — puts an inline diagnostic
text in the structured answer slot and aborts only that branch: provided the
collaborators outside that branch succeed, the request still completes
successfully with the merged response carrying the diagnostic, and the user
message stays persisted. -/
theorem download_error_isolated (env : Env) (content : String) (docs : List DocRecord)
    (ragText : String) (cits : List String)
    (hu : env.userInsert = .ok)
    (hd : env.docsFetch = .ok docs)
    (hset : agentTypeOf env = "simple" ∨ agentTypeOf env = "agentic")
    (hr : env.ragInvoke = .ok (ragText, cits))
    (ha : env.aiInsert = .ok)
    (hs : (docs.filter isStructuredFile).isEmpty = false)
    (hdl : (∃ d m, docs.find? isSchemaFile = some d ∧ env.schemaDownload d.s3_key = some m) ∨
           (∃ d m, docs.find? isSchemaFile = some d ∧ env.schemaDownload d.s3_key = none ∧
             (docs.filter isStructuredFile).findSome? (fun f => env.fileDownload f.s3_key) = some m)) :
    (structuredBranch env docs = schemaNotice ∨
      ∃ m, structuredBranch env docs = errorAnalyzing m) ∧
    send_message env content =
      ⟨.success (mergeResponses (structuredBranch env docs) (suppressGeneric ragText)) cits,
       [("user", content),
        ("assistant",
          mergeResponses (structuredBranch env docs) (suppressGeneric ragText))]⟩ := by
  constructor
  · rw [structuredBranch, if_neg (by simp [hs])]
    rcases hdl with ⟨d, m, hfind, hdown⟩ | ⟨d, m, hfind, hdown, hfs⟩
    · simp only [hfind, hdown]
      exact Or.inl trivial
    · simp only [hfind, hdown, hfs]
      exact Or.inr ⟨m, rfl⟩
  · simp only [send_message, hu, hd, if_pos hset, hr, ha]
    rfl

/-- The schema download failing with the store otherwise healthy: the claim
C8 theorem applied to a concrete environment. -/
theorem download_error_isolated_witness :
    (structuredBranch
        { envStructFail with schemaDownload := fun _ => some "bucket unreachable" } docsEx =
          schemaNotice ∨
      ∃ m, structuredBranch
        { envStructFail with schemaDownload := fun _ => some "bucket unreachable" } docsEx =
          errorAnalyzing m) ∧
    send_message
        { envStructFail with schemaDownload := fun _ => some "bucket unreachable" } "q" =
      ⟨.success (mergeResponses (structuredBranch
          { envStructFail with schemaDownload := fun _ => some "bucket unreachable" } docsEx)
          (suppressGeneric "From documents: X")) [],
       [("user", "q"),
        ("assistant", mergeResponses (structuredBranch
          { envStructFail with schemaDownload := fun _ => some "bucket unreachable" } docsEx)
          (suppressGeneric "From documents: X"))]⟩ :=
  download_error_isolated _ "q" docsEx "From documents: X" []
    rfl rfl (Or.inl rfl) rfl rfl (by decide)
    (Or.inl ⟨⟨"schema.json", "k0"⟩, "bucket unreachable", by decide, rfl⟩)

/-- Claim C9: once the user's message insert succeeds, the user message is in
the persisted store on every control path — no later failure in the
structured branch, the unstructured branch, suppression, merge, or the
assistant-message insert removes or prevents it. -/
theorem user_message_always_persisted (env : Env) (content : String)
    (hu : env.userInsert = .ok) :
    ("user", content) ∈ (send_message env content).savedMessages := by
  simp only [send_message, hu]
  cases hdf : env.docsFetch with
  | raise m => simp
  | ok docs =>
    cases hro : (if agentTypeOf env = "simple" ∨ agentTypeOf env = "agentic"
        then env.ragInvoke else FetchOutcome.ok (("", []) : String × List String)) with
    | raise m => simp
    | ok pr =>
      obtain ⟨ragText, cits⟩ := pr
      cases hai : env.aiInsert <;> simp

theorem user_message_always_persisted_witness :
    ("user", "hello") ∈ (send_message envRagFail "hello").savedMessages :=
  user_message_always_persisted envRagFail "hello" rfl

end Nexora
